import Mathlib

/-
Verification of the path-extraction and quality-check pipeline of
check_quality.py.  The Python functions extract_paths_from_raw and
check_service are embedded shallowly: Python values reachable from
json.loads become the inductive type PyVal, the boto3/pandas
collaborators become an oracle structure, and every catchable or
uncatchable Python exception on the modelled paths becomes an
Except.error.
-/

/-- Values produced by json.loads (floats do not occur in any input
exercised here and are not modelled; ints cover the numeric cases). -/
inductive PyVal where
  | none : PyVal
  | bool : Bool → PyVal
  | int : Int → PyVal
  | str : String → PyVal
  | list : List PyVal → PyVal
  | dict : List (String × PyVal) → PyVal

/-- Python truthiness (bool(v)) for the modelled values. -/
def PyVal.truthy : PyVal → Bool
  | PyVal.none => false
  | PyVal.bool b => b
  | PyVal.int n => !(n == 0)
  | PyVal.str s => !(s == "")
  | PyVal.list xs => !xs.isEmpty
  | PyVal.dict kvs => !kvs.isEmpty

/-- isinstance(v, dict). -/
def PyVal.isDict : PyVal → Bool
  | PyVal.dict _ => true
  | _ => false

/-- The Python exceptions raised on the modelled control paths. -/
inductive PyExc where
  | attributeError : PyExc
  | keyError : PyExc
  | typeError : PyExc
  | valueError : PyExc
deriving DecidableEq

/-- Does the pattern list start the given list?  (Helper for the string
operations used by the source.) -/
def startsWithL : List Char → List Char → Bool
  | [], _ => true
  | _ :: _, [] => false
  | p :: ps, c :: cs => p == c && startsWithL ps cs

/-- Python substring containment: pat in s (over char lists). -/
def containsL (pat : List Char) : List Char → Bool
  | [] => pat.isEmpty
  | c :: rest => startsWithL pat (c :: rest) || containsL pat rest

/-- Python str.endswith over char lists. -/
def endsWithL (suf s : List Char) : Bool :=
  startsWithL suf.reverse s.reverse

/-- Python str.replace over char lists: replace every non-overlapping
occurrence of old, scanning left to right.  The fuel argument starts at
the length of the string and falls by one while every step consumes at
least one character, so the fuel-exhausted arm is unreachable; it keeps
the recursion structural (and hence kernel-reducible).  The source only
ever calls this with the non-empty patterns "_key", "_file", "_path", so
the empty-pattern behaviour of Python (interleaving) is out of scope and
the empty pattern is treated as no occurrence. -/
def replaceL (old new : List Char) : Nat → List Char → List Char
  | _, [] => []
  | 0, s => s
  | fuel + 1, c :: rest =>
    if startsWithL old (c :: rest) && !old.isEmpty then
      new ++ replaceL old new fuel (rest.drop (old.length - 1))
    else
      c :: replaceL old new fuel rest

/-- key.replace(old, new). -/
def pyReplace (s old new : String) : String :=
  String.mk (replaceL old.data new.data s.data.length s.data)

/-- s.endswith(suf). -/
def pyEndsWith (s suf : String) : Bool :=
  endsWithL suf.data s.data

/-- sub in s (substring containment). -/
def pyInStr (sub s : String) : Bool :=
  containsL sub.data s.data

/-- dict.get(k, default). -/
def dictGet (kvs : List (String × PyVal)) (k : String) (d : PyVal) : PyVal :=
  match kvs.lookup k with
  | some v => v
  | Option.none => d

/-- The bucket computed for one JSON key, exactly as the source nests
dict.get calls:
bucket = body_json.get(key.replace("_key", "_bucket"),
           body_json.get(key.replace("_file", "_bucket"),
             body_json.get(key.replace("_path", "_bucket"), ""))). -/
def chainBucket (kvs : List (String × PyVal)) (key : String) : PyVal :=
  dictGet kvs (pyReplace key "_key" "_bucket")
    (dictGet kvs (pyReplace key "_file" "_bucket")
      (dictGet kvs (pyReplace key "_path" "_bucket") (PyVal.str "")))

/-- The JSON branch of extract_paths_from_raw: iterate body_json.items()
in insertion order, keep keys ending in _key, _file or _path whose value
is truthy, and emit (bucket, val) when the computed bucket is truthy.
A dict parsed by json.loads is modelled as its association list in
insertion order with distinct keys. -/
def jsonPairs (kvs : List (String × PyVal)) : List (PyVal × PyVal) :=
  kvs.filterMap (fun kv =>
    if (pyEndsWith kv.1 "_key" || pyEndsWith kv.1 "_file" || pyEndsWith kv.1 "_path")
        && kv.2.truthy then
      if (chainBucket kvs kv.1).truthy then
        some (chainBucket kvs kv.1, kv.2)
      else
        Option.none
    else
      Option.none)

/-- One query parameter as produced by parse_qs.  parse_qs (with its
default keep_blank_values=False) never maps a name to an empty value
list, so the first value (values[0] in the source) is stored separately
and the guard `and values` in the source is always satisfied. -/
structure QueryParam where
  name : String
  firstVal : String
  restVals : List String

/-- The URL branch of extract_paths_from_raw: one left-to-right pass
with a current-bucket variable (None initially, falsy also when it holds
the empty string), updated by any parameter whose name contains
"bucket"; a pair (bucket, values[0]) is appended for a parameter whose
name ends in "file" or "path" while the current bucket is truthy. -/
def urlLoop (bucket : Option String) : List QueryParam → List (String × String)
  | [] => []
  | qp :: rest =>
    let bucket2 := if pyInStr "bucket" qp.name then some qp.firstVal else bucket
    let emit : List (String × String) :=
      if pyEndsWith qp.name "file" || pyEndsWith qp.name "path" then
        match bucket2 with
        | some b => if b == "" then [] else [(b, qp.firstVal)]
        | Option.none => []
      else []
    emit ++ urlLoop bucket2 rest

/-- What extract_paths_from_raw observes of its raw string argument: the
result of json.loads (none when json.JSONDecodeError is raised, some
parsed value otherwise), and the result of urlparse followed by parse_qs
on the query component.  urlparse itself can raise ValueError (for
example "Invalid IPv6 URL" on the raw string "http://["); Except.error
models that raise, Except.ok the parameter list of parse_qs in insertion
order. -/
structure RawContent where
  jsonParse : Option PyVal
  urlParse : Except Unit (List QueryParam)

/-- extract_paths_from_raw.  Only json.JSONDecodeError is caught by the
source, so a raw string that parses as JSON to a non-mapping reaches
body_json.items() and raises AttributeError, and a raw string that is
not valid JSON but is rejected by urlparse raises ValueError. -/
def extract_paths_from_raw (raw : RawContent) : Except PyExc (List (PyVal × PyVal)) :=
  match raw.jsonParse with
  | some (PyVal.dict kvs) => Except.ok (jsonPairs kvs)
  | some _ => Except.error PyExc.attributeError
  | Option.none =>
    match raw.urlParse with
    | Except.error _ => Except.error PyExc.valueError
    | Except.ok qs =>
      Except.ok ((urlLoop Option.none qs).map
        (fun pr => (PyVal.str pr.1, PyVal.str pr.2)))

/-- Except.ok-ness of an extraction outcome ("never raises" holds of an
input exactly when this is true). -/
def exIsOk {α : Type} : Except PyExc α → Bool
  | Except.ok _ => true
  | Except.error _ => false

/-- The raw string parsed as JSON but not to a mapping. -/
def jsonNonMapping : Option PyVal → Bool
  | Option.none => false
  | some v => !v.isDict

/-- The raw string reached the URL branch (it is not valid JSON) and
urlparse raises ValueError on it. -/
def urlParseRaises (raw : RawContent) : Bool :=
  match raw.jsonParse, raw.urlParse with
  | Option.none, Except.error _ => true
  | _, _ => false

/-- The bucket-resolution chain as the spec words it: try the three
substitutions in the fixed order _key, _file, _path (each one a Python
str.replace of every occurrence), falling back to the next one only
when the substituted key is absent from the object, and yield the empty
string when all three lookups are absent. -/
def chainBucketSpec (kvs : List (String × PyVal)) (key : String) : PyVal :=
  match kvs.lookup (pyReplace key "_key" "_bucket") with
  | some v => v
  | Option.none =>
    match kvs.lookup (pyReplace key "_file" "_bucket") with
    | some v => v
    | Option.none =>
      match kvs.lookup (pyReplace key "_path" "_bucket") with
      | some v => v
      | Option.none => PyVal.str ""

/-- The JSON branch as the spec words it: for every top-level key ending
in _key, _file or _path with a truthy value, the emitted bucket is the
value found by the fallback chain, and the reference is emitted exactly
when that value is non-empty (truthy). -/
def jsonPairsSpec (kvs : List (String × PyVal)) : List (PyVal × PyVal) :=
  kvs.filterMap (fun kv =>
    if (pyEndsWith kv.1 "_key" || pyEndsWith kv.1 "_file" || pyEndsWith kv.1 "_path")
        && kv.2.truthy then
      if (chainBucketSpec kvs kv.1).truthy then
        some (chainBucketSpec kvs kv.1, kv.2)
      else
        Option.none
    else
      Option.none)

/-- The parse of the raw string from the C1 source example: the JSON
object with the single entry "foo_key" mapped to "a.json". -/
def rcFooKey : RawContent :=
  ⟨some (PyVal.dict [("foo_key", PyVal.str "a.json")]), Except.ok []⟩

/-- A raw string (such as "[]") that parses as JSON to an empty list. -/
def rcJsonList : RawContent := ⟨some (PyVal.list []), Except.ok []⟩

/-- A raw string (such as "http://[") that is not valid JSON and that
urlparse rejects with ValueError ("Invalid IPv6 URL"). -/
def rcBadUrl : RawContent := ⟨Option.none, Except.error ()⟩

/-- The parse of "http://x/y?input_file=a.json&input_bucket=b1". -/
def rcUrlFileFirst : RawContent :=
  ⟨Option.none, Except.ok [⟨"input_file", "a.json", []⟩, ⟨"input_bucket", "b1", []⟩]⟩

/-- The parse of "http://x/y?input_bucket=b1&input_file=a.json". -/
def rcUrlBucketFirst : RawContent :=
  ⟨Option.none, Except.ok [⟨"input_bucket", "b1", []⟩, ⟨"input_file", "a.json", []⟩]⟩

/-- C1: the claim says extract applied to the JSON object
(foo_key mapped to a.json) returns the empty list, because no companion
bucket key exists.  The code disagrees: since "foo_key" contains no
occurrence of "_file", key.replace("_file", "_bucket") is "foo_key"
itself, the middle dict.get finds the original key, and the truthy value
"a.json" is used as the bucket, so the extractor returns the nonsensical
reference list [("a.json", "a.json")] instead of []. -/
theorem json_missing_bucket_code_bug_C1 :
    extract_paths_from_raw rcFooKey =
      Except.ok [(PyVal.str "a.json", PyVal.str "a.json")] ∧
    extract_paths_from_raw rcFooKey ≠ Except.ok [] := by
  refine ⟨rfl, ?_⟩
  intro h
  have h2 : (Except.ok [(PyVal.str "a.json", PyVal.str "a.json")] :
      Except PyExc (List (PyVal × PyVal))) = Except.ok [] := h
  simp at h2

/-- C2 counterexample: a raw string such as "[]" parses as JSON to a
list, the uncaught call body_json.items() raises AttributeError, and the
extractor does not return the empty list, refuting "never raises". -/
theorem extract_nonmapping_raises_C2_cex :
    extract_paths_from_raw rcJsonList = Except.error PyExc.attributeError ∧
    extract_paths_from_raw rcJsonList ≠ Except.ok [] := by
  refine ⟨rfl, ?_⟩
  intro h
  have h2 : (Except.error PyExc.attributeError :
      Except PyExc (List (PyVal × PyVal))) = Except.ok [] := h
  simp at h2

/-- C2 (amended): extract is not total.  It raises AttributeError
exactly on the inputs that parse as JSON to a non-mapping (.items() on
the parse result, uncaught by the except clause for
json.JSONDecodeError), it raises ValueError exactly on the inputs that
are not valid JSON and that urlparse rejects (such as "http://["), and
it returns a result without raising exactly on the remaining inputs;
in particular the JSON branch never returns an empty list for a
non-mapping document, it raises instead. -/
theorem extract_total_iff_mapping_C2 :
    (∀ raw : RawContent,
      (extract_paths_from_raw raw = Except.error PyExc.attributeError
        ↔ jsonNonMapping raw.jsonParse = true) ∧
      (extract_paths_from_raw raw = Except.error PyExc.valueError
        ↔ urlParseRaises raw = true) ∧
      (exIsOk (extract_paths_from_raw raw) = true
        ↔ (jsonNonMapping raw.jsonParse = false ∧ urlParseRaises raw = false))) ∧
    extract_paths_from_raw rcBadUrl = Except.error PyExc.valueError := by
  refine ⟨?_, rfl⟩
  intro raw
  obtain ⟨jp, up⟩ := raw
  cases jp with
  | none =>
    cases up <;>
      simp [extract_paths_from_raw, jsonNonMapping, urlParseRaises, exIsOk]
  | some v =>
    cases up <;> cases v <;>
      simp [extract_paths_from_raw, jsonNonMapping, urlParseRaises, exIsOk,
        PyVal.isDict]

/-- C3: in the JSON branch the companion bucket of every suffix-matching
key with a truthy value is resolved by the fixed substitution chain
_key to _bucket, then _file to _bucket, then _path to _bucket, falling
back to the next substitution only when the prior lookup is absent, and
the first non-empty value the chain finds (independently of which suffix
matched the key) is the bucket of the emitted reference: the nested
dict.get defaults of the source compute exactly this chain. -/
theorem json_bucket_chain_C3 :
    (∀ kvs key, chainBucket kvs key = chainBucketSpec kvs key) ∧
    (∀ kvs, jsonPairs kvs = jsonPairsSpec kvs) := by
  have h1 : ∀ kvs key, chainBucket kvs key = chainBucketSpec kvs key := by
    intro kvs key
    rfl
  refine ⟨h1, ?_⟩
  intro kvs
  simp only [jsonPairs, jsonPairsSpec, h1]

/-- A parameter whose name lacks the substring "bucket" neither updates
the scan state (still no bucket seen) nor emits a reference. -/
theorem urlLoop_nonbucket (qp : QueryParam) (rest : List QueryParam)
    (h : pyInStr "bucket" qp.name = false) :
    urlLoop Option.none (qp :: rest) = urlLoop Option.none rest := by
  simp [urlLoop, h]

/-- C4: the URL branch is one left-to-right pass with a current-bucket
variable updated by any parameter whose name contains "bucket"; a
reference (current bucket, first value) is emitted for a parameter
ending in "file" or "path" only when a bucket parameter appeared at or
before it, so the file-before-bucket example yields [] and the
bucket-before-file example yields [("b1", "a.json")]. -/
theorem url_left_to_right_C4 :
    (∀ pre cur post,
      (∀ qp ∈ pre ++ [cur], pyInStr "bucket" qp.name = false) →
      urlLoop Option.none (pre ++ cur :: post) = urlLoop Option.none post) ∧
    (∀ b qp rest, pyInStr "bucket" qp.name = false → (b == "") = false →
      (pyEndsWith qp.name "file" || pyEndsWith qp.name "path") = true →
      urlLoop (some b) (qp :: rest) = (b, qp.firstVal) :: urlLoop (some b) rest) ∧
    extract_paths_from_raw rcUrlFileFirst = Except.ok [] ∧
    extract_paths_from_raw rcUrlBucketFirst =
      Except.ok [(PyVal.str "b1", PyVal.str "a.json")] := by
  refine ⟨?_, ?_, rfl, rfl⟩
  · intro pre
    induction pre with
    | nil =>
      intro cur post h
      exact urlLoop_nonbucket cur post (h cur (by simp))
    | cons qp0 pre0 ih =>
      intro cur post h
      have h0 : pyInStr "bucket" qp0.name = false := h qp0 (by simp)
      calc urlLoop Option.none ((qp0 :: pre0) ++ cur :: post)
          = urlLoop Option.none (pre0 ++ cur :: post) :=
            urlLoop_nonbucket qp0 _ h0
        _ = urlLoop Option.none post :=
            ih cur post (fun qp hqp => h qp (by simp at hqp ⊢; tauto))
  · intro b qp rest h1 h2 h3
    simp [urlLoop, h1, h3, h2]

/-- C4 witness: the only-when direction applied to a concrete scan whose
first two parameters lack "bucket" in their names, and the emission form
applied to a concrete parameter scanned with a non-empty current
bucket. -/
theorem url_left_to_right_C4_witness :
    urlLoop Option.none
        ([⟨"a", "1", []⟩] ++ (⟨"x_file", "f", []⟩ : QueryParam) :: [⟨"b", "2", []⟩]) =
      urlLoop Option.none [⟨"b", "2", []⟩] ∧
    urlLoop (some "bb") ((⟨"y_path", "p", []⟩ : QueryParam) :: []) =
      ("bb", "p") :: urlLoop (some "bb") [] :=
  ⟨url_left_to_right_C4.1 [⟨"a", "1", []⟩] ⟨"x_file", "f", []⟩ [⟨"b", "2", []⟩]
      (by decide),
   url_left_to_right_C4.2.1 "bb" ⟨"y_path", "p", []⟩ []
      (by decide) (by decide) (by decide)⟩

/-- Comma-space separated join, as Python renders container elements. -/
def commaSep : List String → String
  | [] => ""
  | [s] => s
  | s :: rest => s ++ ", " ++ commaSep rest

/-- A single-quote character, built from its code point. -/
def squote : String := String.singleton (Char.ofNat 39)

/-- Python repr for the modelled values (escaping of special characters
inside string contents is not modelled; no reference built below renders
such a string). -/
def pyRepr : PyVal → String
  | PyVal.none => "None"
  | PyVal.bool true => "True"
  | PyVal.bool false => "False"
  | PyVal.int n => toString n
  | PyVal.str s => squote ++ s ++ squote
  | PyVal.list xs => "[" ++ commaSep (xs.attach.map (fun x => pyRepr x.1)) ++ "]"
  | PyVal.dict kvs =>
    "\x7b" ++ commaSep (kvs.attach.map
      (fun kv => squote ++ kv.1.1 ++ squote ++ ": " ++ pyRepr kv.1.2)) ++ "\x7d"
termination_by v => sizeOf v
decreasing_by
  · have h := List.sizeOf_lt_of_mem x.2
    simp only [PyVal.list.sizeOf_spec]
    omega
  · have h := List.sizeOf_lt_of_mem kv.2
    have h2 : sizeOf kv.1.2 < sizeOf kv.1 := by
      rcases kv with ⟨⟨ks, kvv⟩, hmem⟩
      simp only [Prod.mk.sizeOf_spec]
      omega
    simp only [PyVal.dict.sizeOf_spec]
    omega

/-- Python str(), as the f-string building the s3 path applies it: a
string renders as itself, every other value as its repr. -/
def pyStr : PyVal → String
  | PyVal.str s => s
  | v => pyRepr v

/-- The decoded columnar table: pandas exposes the row count and the
column-name sequence; DataFrame.empty is true when either axis has
length zero. -/
structure Table where
  nRows : Nat
  columns : List String

/-- df.empty. -/
def tableIsEmpty (t : Table) : Bool :=
  t.nRows == 0 || t.columns.isEmpty

/-- The external collaborators, as one oracle keyed by (bucket, key):
headOk tells whether s3.head_object succeeds; getParquet models
get_object plus Body.read() plus pd.read_parquet as one fallible step
whose error carries str(e); getJson models get_object plus Body.read()
plus json.loads the same way. -/
structure Storage where
  headOk : String → String → Bool
  getParquet : String → String → Except String Table
  getJson : String → String → Except String PyVal

/-- The four accumulators of the per-reference loop of check_service. -/
structure CheckState where
  fileAccessFailed : List (String × String)
  roomCategoryFailed : List String
  emptyFileFailed : List String
  filesChecked : Nat

/-- The accumulators before the loop runs. -/
def initState : CheckState := ⟨[], [], [], 0⟩

/-- The f-string s3://bucket/key for string components. -/
def s3PathStr (bucket key : String) : String :=
  "s3://" ++ bucket ++ "/" ++ key

/-- The body of the for-loop of check_service for one (bucket, key)
pair.  A pair with a non-string component is an access failure with the
probe reason: boto3 validates head_object parameters against the service
model and raises ParamValidationError for a non-string Bucket or Key,
which the first except clause catches. -/
def processRef (st : Storage) (acc : CheckState) : PyVal × PyVal → CheckState
  | (PyVal.str bucket, PyVal.str key) =>
    if !st.headOk bucket key then
      { acc with fileAccessFailed :=
          acc.fileAccessFailed ++ [(s3PathStr bucket key, "unable to access the file")] }
    else if pyEndsWith key ".parquet" then
      match st.getParquet bucket key with
      | Except.error msg =>
        { acc with fileAccessFailed :=
            acc.fileAccessFailed ++ [(s3PathStr bucket key, msg)] }
      | Except.ok df =>
        let acc1 := { acc with filesChecked := acc.filesChecked + 1 }
        let acc2 :=
          if tableIsEmpty df then
            { acc1 with emptyFileFailed := acc1.emptyFileFailed ++ [s3PathStr bucket key] }
          else acc1
        if !(df.columns.contains "room_category") then
          { acc2 with roomCategoryFailed := acc2.roomCategoryFailed ++ [s3PathStr bucket key] }
        else acc2
    else if pyEndsWith key ".json" then
      match st.getJson bucket key with
      | Except.error msg =>
        { acc with fileAccessFailed :=
            acc.fileAccessFailed ++ [(s3PathStr bucket key, msg)] }
      | Except.ok content =>
        let acc1 := { acc with filesChecked := acc.filesChecked + 1 }
        match content with
        | PyVal.dict kvs =>
          if !(kvs.any (fun kv => kv.1 == "room_category")) then
            { acc1 with roomCategoryFailed := acc1.roomCategoryFailed ++ [s3PathStr bucket key] }
          else acc1
        | _ => acc1
    else acc
  | (b, k) =>
    { acc with fileAccessFailed :=
        acc.fileAccessFailed ++
          [("s3://" ++ pyStr b ++ "/" ++ pyStr k, "unable to access the file")] }

/-- The per-reference loop, in original list order. -/
def runChecksFrom (st : Storage) (acc : CheckState) : List (PyVal × PyVal) → CheckState
  | [] => acc
  | p :: rest => runChecksFrom st (processRef st acc p) rest

/-- The loop started on the empty accumulators. -/
def runChecks (st : Storage) (paths : List (PyVal × PyVal)) : CheckState :=
  runChecksFrom st initState paths

/-- The file_accessible bucket of the printed report. -/
def accessLines (cs : CheckState) : List String :=
  if !cs.fileAccessFailed.isEmpty then
    "file_accessible : Failed" ::
      cs.fileAccessFailed.map (fun pr => "  " ++ pr.1 ++ " -> " ++ pr.2)
  else
    ["file_accessible : Passed"]

/-- The printed report, one string per printed line: the accessibility
bucket, then either the two forced-failure lines (after which the
function returns) when no file was successfully read, or the
room_category_check and empty_file buckets. -/
def report (cs : CheckState) : List String :=
  accessLines cs ++
    (if cs.filesChecked == 0 then
      ["room_category_check : Failed (no accessible files)",
       "empty_file : Failed (no accessible files)"]
    else
      (if !cs.roomCategoryFailed.isEmpty then
        "room_category_check : Failed" ::
          cs.roomCategoryFailed.map (fun p => "  " ++ p)
      else
        ["room_category_check : Passed"]) ++
      (if !cs.emptyFileFailed.isEmpty then
        "empty_file : Failed" :: cs.emptyFileFailed.map (fun p => "  " ++ p)
      else
        ["empty_file : Passed"]))

/-- Python subscript v[k] for a string key: KeyError on a missing dict
key, TypeError on any non-dict value (list and str subscripts require
integers, scalars are not subscriptable). -/
def pySubscript (v : PyVal) (k : String) : Except PyExc PyVal :=
  match v with
  | PyVal.dict kvs =>
    match kvs.lookup k with
    | some x => Except.ok x
    | Option.none => Except.error PyExc.keyError
  | _ => Except.error PyExc.typeError

/-- Python iteration: a list yields its elements, a dict its keys, a
string its characters; other values raise TypeError. -/
def pyIter : PyVal → Except PyExc (List PyVal)
  | PyVal.list xs => Except.ok xs
  | PyVal.dict kvs => Except.ok (kvs.map (fun kv => PyVal.str kv.1))
  | PyVal.str s => Except.ok (s.data.map (fun c => PyVal.str (String.singleton c)))
  | _ => Except.error PyExc.typeError

/-- Python == of a value against a str: only equal strings compare
equal; values of other types compare unequal without raising. -/
def pyEqStr : PyVal → String → Bool
  | PyVal.str s, t => s == t
  | _, _ => false

/-- Python membership (needle in container) for a string needle: key
membership for a dict, ==-membership for a list, substring containment
for a str, TypeError otherwise. -/
def pyIn (needle : String) : PyVal → Except PyExc Bool
  | PyVal.dict kvs => Except.ok (kvs.any (fun kv => kv.1 == needle))
  | PyVal.list xs => Except.ok (xs.any (fun v => pyEqStr v needle))
  | PyVal.str s => Except.ok (pyInStr needle s)
  | _ => Except.error PyExc.typeError

/-- next((item for item in items if item["name"] == service_name), None):
lazily scan for the first entry whose "name" equals the requested name;
the subscript of an entry reached before any match can raise. -/
def findService (serviceName : String) : List PyVal → Except PyExc (Option PyVal)
  | [] => Except.ok Option.none
  | it :: rest =>
    match pySubscript it "name" with
    | Except.error e => Except.error e
    | Except.ok n =>
      if pyEqStr n serviceName then Except.ok (some it)
      else findService serviceName rest

/-- The single line printed when the entry is not found. -/
def notFoundMsg (serviceName : String) : String :=
  "Service " ++ squote ++ serviceName ++ squote ++ " not found in JSON"

/-- extract_paths_from_raw as called on a collection value: json.loads
requires str (or bytes, which a parsed JSON collection cannot hold) and
raises TypeError otherwise. -/
def extractFromVal (parse : String → RawContent) :
    PyVal → Except PyExc (List (PyVal × PyVal))
  | PyVal.str s => extract_paths_from_raw (parse s)
  | _ => Except.error PyExc.typeError

/-- One of the two guarded extractions of check_service: when field is
in service_item["request"] and "raw" is in service_item["request"][field],
extend paths with the extraction of service_item["request"][field]["raw"];
otherwise contribute nothing. -/
def rawOf (parse : String → RawContent) (serviceItem : PyVal) (field : String) :
    Except PyExc (List (PyVal × PyVal)) :=
  match pySubscript serviceItem "request" with
  | Except.error e => Except.error e
  | Except.ok req =>
    match pyIn field req with
    | Except.error e => Except.error e
    | Except.ok false => Except.ok []
    | Except.ok true =>
      match pySubscript req field with
      | Except.error e => Except.error e
      | Except.ok sub =>
        match pyIn "raw" sub with
        | Except.error e => Except.error e
        | Except.ok false => Except.ok []
        | Except.ok true =>
          match pySubscript sub "raw" with
          | Except.error e => Except.error e
          | Except.ok rawv => extractFromVal parse rawv

/-- The candidate reference list: body extraction, then url extraction,
concatenated in that order. -/
def rawPaths (parse : String → RawContent) (serviceItem : PyVal) :
    Except PyExc (List (PyVal × PyVal)) :=
  match rawOf parse serviceItem "body" with
  | Except.error e => Except.error e
  | Except.ok ps1 =>
    match rawOf parse serviceItem "url" with
    | Except.error e => Except.error e
    | Except.ok ps2 => Except.ok (ps1 ++ ps2)

/-- check_service from the parsed collection document on: locate the
entry (any falsy result of the search prints the not-found line and
returns), extract the references, run the per-reference loop and print
the three-bucket report, returned here as the list of printed lines; an
Except.error is an uncaught Python exception.  The parse oracle supplies
what extract_paths_from_raw observes of each raw string. -/
def check_service (parse : String → RawContent) (data : PyVal)
    (serviceName : String) (st : Storage) : Except PyExc (List String) :=
  match pySubscript data "item" with
  | Except.error e => Except.error e
  | Except.ok items =>
    match pyIter items with
    | Except.error e => Except.error e
    | Except.ok itemList =>
      match findService serviceName itemList with
      | Except.error e => Except.error e
      | Except.ok Option.none => Except.ok [notFoundMsg serviceName]
      | Except.ok (some serviceItem) =>
        if !serviceItem.truthy then Except.ok [notFoundMsg serviceName]
        else
          match rawPaths parse serviceItem with
          | Except.error e => Except.error e
          | Except.ok paths => Except.ok (report (runChecks st paths))

/-- A storage oracle on which every probe fails. -/
def stAllFail : Storage :=
  ⟨fun _ _ => false, fun _ _ => Except.error "x", fun _ _ => Except.error "x"⟩

/-- A storage oracle that is accessible everywhere but whose content
reads all fail. -/
def stReadFail : Storage :=
  ⟨fun _ _ => true, fun _ _ => Except.error "parquet decode failed",
   fun _ _ => Except.error "json decode failed"⟩

/-- A storage oracle serving a JSON object without "room_category". -/
def stJsonNoRoom : Storage :=
  ⟨fun _ _ => true, fun _ _ => Except.error "x",
   fun _ _ => Except.ok (PyVal.dict [("x", PyVal.int 1)])⟩

/-- A storage oracle serving a non-object JSON document. -/
def stJsonScalar : Storage :=
  ⟨fun _ _ => true, fun _ _ => Except.error "x",
   fun _ _ => Except.ok (PyVal.list [PyVal.int 1])⟩

/-- C5: a reference whose accessibility probe fails is recorded in the
accessibility bucket with the fixed reason "unable to access the file"
and is excluded from everything else: the loop step for it appends only
to fileAccessFailed and leaves the schema bucket, the emptiness bucket
and the checked count unchanged. -/
theorem probe_failure_short_circuits_C5 (st : Storage) (acc : CheckState)
    (b k : String) (h : st.headOk b k = false) :
    processRef st acc (PyVal.str b, PyVal.str k) =
      { acc with fileAccessFailed :=
          acc.fileAccessFailed ++ [(s3PathStr b k, "unable to access the file")] } := by
  simp [processRef, h]

/-- C5 witness: the loop step at a concrete failing probe. -/
theorem probe_failure_short_circuits_C5_witness :
    processRef stAllFail initState (PyVal.str "b1", PyVal.str "a.json") =
      { initState with fileAccessFailed :=
          initState.fileAccessFailed ++
            [(s3PathStr "b1" "a.json", "unable to access the file")] } :=
  probe_failure_short_circuits_C5 stAllFail initState "b1" "a.json" rfl

/-- A reference the loop can never read: a non-string component, a
failing probe, or a key with neither checked extension. -/
def uncheckableB (st : Storage) : PyVal × PyVal → Bool
  | (PyVal.str b, PyVal.str k) =>
    !st.headOk b k || (!pyEndsWith k ".parquet" && !pyEndsWith k ".json")
  | _ => true

/-- One loop step over an unreadable reference leaves the checked count
alone. -/
theorem processRef_checked_of_uncheckable (st : Storage) (acc : CheckState)
    (p : PyVal × PyVal) (h : uncheckableB st p = true) :
    (processRef st acc p).filesChecked = acc.filesChecked := by
  rcases p with ⟨_ | _ | _ | b | _ | _, _ | _ | _ | k | _ | _⟩ <;> try rfl
  simp only [uncheckableB] at h
  cases hh : st.headOk b k with
  | false => simp [processRef, hh]
  | true =>
    rw [hh] at h
    simp at h
    simp [processRef, hh, h.1, h.2]

/-- A loop over only unreadable references leaves the checked count
alone. -/
theorem runChecksFrom_checked_of_uncheckable (st : Storage) :
    ∀ paths : List (PyVal × PyVal), (∀ p ∈ paths, uncheckableB st p = true) →
      ∀ acc, (runChecksFrom st acc paths).filesChecked = acc.filesChecked := by
  intro paths
  induction paths with
  | nil => intro _ acc; rfl
  | cons p rest ih =>
    intro h acc
    show (runChecksFrom st (processRef st acc p) rest).filesChecked = acc.filesChecked
    rw [ih (fun q hq => h q (by simp [hq])) (processRef st acc p),
      processRef_checked_of_uncheckable st acc p (h p (by simp))]

/-- C6: when zero references were successfully read, the report is the
accessibility bucket followed by exactly the two forced-failure lines
("Failed (no accessible files)") and nothing after them; and a run in
which every reference fails its probe, has a non-string component or
has neither checked extension ends with a zero checked count and so
prints exactly those lines. -/
theorem zero_checked_forced_failure_C6 :
    (∀ cs : CheckState, cs.filesChecked = 0 →
      report cs = accessLines cs ++
        ["room_category_check : Failed (no accessible files)",
         "empty_file : Failed (no accessible files)"]) ∧
    (∀ st paths, (∀ p ∈ paths, uncheckableB st p = true) →
      (runChecks st paths).filesChecked = 0 ∧
      report (runChecks st paths) = accessLines (runChecks st paths) ++
        ["room_category_check : Failed (no accessible files)",
         "empty_file : Failed (no accessible files)"]) := by
  have h1 : ∀ cs : CheckState, cs.filesChecked = 0 →
      report cs = accessLines cs ++
        ["room_category_check : Failed (no accessible files)",
         "empty_file : Failed (no accessible files)"] := by
    intro cs h
    simp [report, h]
  refine ⟨h1, ?_⟩
  intro st paths h
  have h0 : (runChecks st paths).filesChecked = 0 :=
    runChecksFrom_checked_of_uncheckable st paths h initState
  exact ⟨h0, h1 _ h0⟩

/-- C6 witness: a run whose single reference fails its probe prints the
two forced-failure lines right after the accessibility bucket. -/
theorem zero_checked_forced_failure_C6_witness :
    (runChecks stAllFail [(PyVal.str "b1", PyVal.str "a.json")]).filesChecked = 0 ∧
    report (runChecks stAllFail [(PyVal.str "b1", PyVal.str "a.json")]) =
      accessLines (runChecks stAllFail [(PyVal.str "b1", PyVal.str "a.json")]) ++
        ["room_category_check : Failed (no accessible files)",
         "empty_file : Failed (no accessible files)"] :=
  zero_checked_forced_failure_C6.2 stAllFail [(PyVal.str "b1", PyVal.str "a.json")]
    (by decide)

/-- C7: for an accessible reference whose content fetch or decode raises
(.parquet or .json), the loop records the raised error's message --- not
the fixed probe reason --- in the accessibility bucket, leaves the other
buckets and the checked count unchanged, and continues with the
remaining references. -/
theorem content_failure_recorded_C7 :
    (∀ st acc (b k msg : String), st.headOk b k = true →
      pyEndsWith k ".parquet" = true →
      st.getParquet b k = Except.error msg →
      processRef st acc (PyVal.str b, PyVal.str k) =
        { acc with fileAccessFailed := acc.fileAccessFailed ++ [(s3PathStr b k, msg)] }) ∧
    (∀ st acc (b k msg : String), st.headOk b k = true →
      pyEndsWith k ".parquet" = false →
      pyEndsWith k ".json" = true →
      st.getJson b k = Except.error msg →
      processRef st acc (PyVal.str b, PyVal.str k) =
        { acc with fileAccessFailed := acc.fileAccessFailed ++ [(s3PathStr b k, msg)] }) ∧
    (∀ st acc p rest, runChecksFrom st acc (p :: rest) =
      runChecksFrom st (processRef st acc p) rest) := by
  refine ⟨?_, ?_, fun st acc p rest => rfl⟩
  · intro st acc b k msg h1 h2 h3
    simp [processRef, h1, h2, h3]
  · intro st acc b k msg h1 h2 h3 h4
    simp [processRef, h1, h2, h3, h4]

/-- C7 witness: concrete content-read failures for a .parquet and a
.json reference, each recorded with its own error message. -/
theorem content_failure_recorded_C7_witness :
    processRef stReadFail initState (PyVal.str "b1", PyVal.str "a.parquet") =
      { initState with fileAccessFailed :=
          initState.fileAccessFailed ++
            [(s3PathStr "b1" "a.parquet", "parquet decode failed")] } ∧
    processRef stReadFail initState (PyVal.str "b1", PyVal.str "a.json") =
      { initState with fileAccessFailed :=
          initState.fileAccessFailed ++
            [(s3PathStr "b1" "a.json", "json decode failed")] } :=
  ⟨content_failure_recorded_C7.1 stReadFail initState "b1" "a.parquet"
      "parquet decode failed" rfl rfl rfl,
   content_failure_recorded_C7.2.1 stReadFail initState "b1" "a.json"
      "json decode failed" rfl rfl rfl rfl⟩

/-- C8: an accessible .json reference that parses to an object without a
top-level "room_category" key is added to the schema failures and counted
as checked; one that parses to a non-object is counted as checked but
added to neither the schema bucket nor the emptiness bucket. -/
theorem json_schema_check_C8 :
    (∀ st acc (b k : String) kvs, st.headOk b k = true →
      pyEndsWith k ".parquet" = false → pyEndsWith k ".json" = true →
      st.getJson b k = Except.ok (PyVal.dict kvs) →
      (kvs.any (fun kv => kv.1 == "room_category")) = false →
      processRef st acc (PyVal.str b, PyVal.str k) =
        { acc with
            filesChecked := acc.filesChecked + 1
            roomCategoryFailed := acc.roomCategoryFailed ++ [s3PathStr b k] }) ∧
    (∀ st acc (b k : String) v, st.headOk b k = true →
      pyEndsWith k ".parquet" = false → pyEndsWith k ".json" = true →
      st.getJson b k = Except.ok v → v.isDict = false →
      processRef st acc (PyVal.str b, PyVal.str k) =
        { acc with filesChecked := acc.filesChecked + 1 }) := by
  refine ⟨?_, ?_⟩
  · intro st acc b k kvs h1 h2 h3 h4 h5
    simp [processRef, h1, h2, h3, h4, h5]
  · intro st acc b k v h1 h2 h3 h4 h5
    cases v <;> simp_all [processRef, PyVal.isDict]

/-- C8 witness: a concrete object without "room_category" lands in the
schema failures; a concrete non-object content only counts as checked. -/
theorem json_schema_check_C8_witness :
    processRef stJsonNoRoom initState (PyVal.str "b1", PyVal.str "a.json") =
      { initState with
          filesChecked := initState.filesChecked + 1
          roomCategoryFailed := initState.roomCategoryFailed ++ [s3PathStr "b1" "a.json"] } ∧
    processRef stJsonScalar initState (PyVal.str "b1", PyVal.str "a.json") =
      { initState with filesChecked := initState.filesChecked + 1 } :=
  ⟨json_schema_check_C8.1 stJsonNoRoom initState "b1" "a.json" [("x", PyVal.int 1)]
      rfl rfl rfl rfl rfl,
   json_schema_check_C8.2 stJsonScalar initState "b1" "a.json" (PyVal.list [PyVal.int 1])
      rfl rfl rfl rfl rfl⟩

/-- C9: when the search over the item sequence finds no entry with the
requested name, check_service returns exactly the one not-found line,
for every storage oracle (no storage access is reachable) and with none
of the three report buckets; and the search takes the first entry whose
name matches, ignoring everything after it. -/
theorem entry_not_found_C9 :
    (∀ parse data serviceName st items itemList,
      pySubscript data "item" = Except.ok items →
      pyIter items = Except.ok itemList →
      findService serviceName itemList = Except.ok Option.none →
      check_service parse data serviceName st = Except.ok [notFoundMsg serviceName]) ∧
    (∀ serviceName it rest,
      pySubscript it "name" = Except.ok (PyVal.str serviceName) →
      findService serviceName (it :: rest) = Except.ok (some it)) := by
  refine ⟨?_, ?_⟩
  · intro parse data serviceName st items itemList h1 h2 h3
    simp [check_service, h1, h2, h3]
  · intro serviceName it rest h
    simp [findService, h, pyEqStr]

/-- The parse oracle for raw strings that are neither JSON nor carry a
query string (never consulted on the runs below). -/
def parse0 : String → RawContent := fun _ => ⟨Option.none, Except.ok []⟩

/-- A collection whose single entry has a different name. -/
def collNoMatch : PyVal :=
  PyVal.dict [("item", PyVal.list [PyVal.dict [("name", PyVal.str "other")]])]

/-- C9 witness: a concrete miss prints the one not-found line, and a
concrete duplicate-name sequence resolves to its first entry. -/
theorem entry_not_found_C9_witness :
    check_service parse0 collNoMatch "svc" stAllFail = Except.ok [notFoundMsg "svc"] ∧
    findService "dup"
        (PyVal.dict [("name", PyVal.str "dup"), ("marker", PyVal.int 1)] ::
          [PyVal.dict [("name", PyVal.str "dup")]]) =
      Except.ok (some (PyVal.dict [("name", PyVal.str "dup"), ("marker", PyVal.int 1)])) :=
  ⟨entry_not_found_C9.1 parse0 collNoMatch "svc" stAllFail _ _ rfl rfl rfl,
   entry_not_found_C9.2 "dup" _ _ rfl⟩

/-- C10: a collection document that lacks a top-level "item" key, an
entry without a "name" key reached during the search, and a located
entry without a "request" key each make check_service propagate an
uncaught KeyError instead of returning any printed report. -/
theorem unhandled_collection_shapes_C10 :
    (∀ parse serviceName st kvs, kvs.lookup "item" = Option.none →
      check_service parse (PyVal.dict kvs) serviceName st =
        Except.error PyExc.keyError) ∧
    (∀ parse serviceName st ekvs rest, ekvs.lookup "name" = Option.none →
      check_service parse
          (PyVal.dict [("item", PyVal.list (PyVal.dict ekvs :: rest))]) serviceName st =
        Except.error PyExc.keyError) ∧
    (∀ parse serviceName st,
      check_service parse
          (PyVal.dict [("item", PyVal.list [PyVal.dict [("name", PyVal.str serviceName)]])])
          serviceName st =
        Except.error PyExc.keyError) := by
  refine ⟨?_, ?_, ?_⟩
  · intro parse serviceName st kvs h
    simp [check_service, pySubscript, h]
  · intro parse serviceName st ekvs rest h
    simp [check_service, pySubscript, pyIter, findService, h]
  · intro parse serviceName st
    simp [check_service, pySubscript, pyIter, findService, pyEqStr,
      PyVal.truthy, rawPaths, rawOf, List.lookup]

/-- C10 witness: the three raising shapes at concrete collections. -/
theorem unhandled_collection_shapes_C10_witness :
    check_service parse0 (PyVal.dict [("other", PyVal.int 1)]) "svc" stAllFail =
      Except.error PyExc.keyError ∧
    check_service parse0
        (PyVal.dict [("item", PyVal.list [PyVal.dict [("x", PyVal.int 1)]])])
        "svc" stAllFail =
      Except.error PyExc.keyError ∧
    check_service parse0
        (PyVal.dict [("item", PyVal.list [PyVal.dict [("name", PyVal.str "svc")]])])
        "svc" stAllFail =
      Except.error PyExc.keyError :=
  ⟨unhandled_collection_shapes_C10.1 parse0 "svc" stAllFail [("other", PyVal.int 1)] rfl,
   unhandled_collection_shapes_C10.2.1 parse0 "svc" stAllFail [("x", PyVal.int 1)] [] rfl,
   unhandled_collection_shapes_C10.2.2 parse0 "svc" stAllFail⟩
